import Mathlib

/-!
Verification of the reasoning chain generation and analysis engine
(`src/backend/ml/services/reasoning_engine.py` and the reasoning endpoints of
`src/backend/ml/main.py`) against its natural-language specification.

Modelling conventions:
* Python floats are modelled as rationals (`ℚ`); every constant in the source
  (0.5, 0.3, 0.2, 0.7, 0.8, ...) is exactly representable, so no rounding
  questions arise for the properties considered here.
* Python's `re` module is external library code, not code of this repository;
  where a function feeds a regular expression to `re.findall` / `re.finditer`
  the embedding takes the resulting match list (or the matcher itself) as an
  explicit argument, while everything the repository does with those matches is
  embedded faithfully.
* Code paths guarded by `try/except` whose bodies are total in this embedding
  are embedded without the handler; handlers that are reachable through an
  external call failing are modelled with an explicit result type.
-/

namespace ClaimMapper

/-- Reasoning types from `models/schemas.py` (`ReasoningType`). -/
inductive ReasoningType where
  | deductive
  | inductiveR
  | abductive
deriving DecidableEq, Repr

/-- Embedding of the pydantic model `ReasoningStep` from `models/schemas.py`. -/
structure ReasoningStep where
  step_number : Nat
  text : String
  confidence : ℚ
  type : String
  evidence_used : List String
deriving DecidableEq, Repr

/-- Embedding of the pydantic model `ReasoningChain` from `models/schemas.py`,
restricted to the fields the reasoning engine reads or writes while building a
chain.  The analysis fields set by the post-processing pass in
`generate_reasoning_chain` are not needed for the claims under study. -/
structure ReasoningChain where
  steps : List ReasoningStep
  reasoning_type : ReasoningType
  overall_confidence : ℚ
  logical_validity : ℚ
  assumptions : List String := []
  weaknesses : List String := []
  evidence_requirements : List String := []
  counterarguments : List String := []
deriving DecidableEq, Repr

/-- Python's built-in `min` on two floats: the first argument when the
arguments are equal. -/
def pymin (a b : ℚ) : ℚ := if a ≤ b then a else b

/-- Python's built-in `max` on two floats: the first argument when the
arguments are equal. -/
def pymax (a b : ℚ) : ℚ := if b ≤ a then a else b

/-- Python's `str.lower()`; character-wise lower-casing (the source only
distinguishes ASCII text). -/
def lower (s : String) : String := String.mk (s.toList.map Char.toLower)

/-- Python's `str.strip()` with no argument: remove leading and trailing
whitespace. -/
def strip (s : String) : String :=
  String.mk
    (((s.toList.dropWhile Char.isWhitespace).reverse.dropWhile
        Char.isWhitespace).reverse)

/-- Recursion for `str.split('\n')`: split a character list at every newline;
`n` separators always yield `n + 1` pieces. -/
def splitLinesAux : List Char → List (List Char)
  | [] => [[]]
  | c :: rest =>
    if c = '\n' then [] :: splitLinesAux rest
    else
      match splitLinesAux rest with
      | [] => [[c]]
      | piece :: pieces => (c :: piece) :: pieces

/-- Python's `str.split('\n')`. -/
def splitLines (s : String) : List String := (splitLinesAux s.toList).map String.mk

/-- Python's `str.replace(" ", "_")`: with a one-character pattern, replacement
is character-wise. -/
def replaceSpaces (s : String) : String :=
  String.mk (s.toList.map (fun c => if c = ' ' then '_' else c))

/-- Arithmetic mean of the step confidences, as computed in the source by
`sum(step.confidence for step in steps) / len(steps)` (only ever evaluated on
non-empty lists there). -/
def meanConfidence (steps : List ReasoningStep) : ℚ :=
  (steps.map (fun s => s.confidence)).sum / steps.length

/-- Embedding of `ReasoningChainGenerator._assess_logical_validity`
(`services/reasoning_engine.py`).  The sequence of score updates mirrors the
imperative accumulation in the source; `reasoning_type` is accepted and, as in
the source, never used. -/
def assess_logical_validity (steps : List ReasoningStep)
    (_reasoning_type : ReasoningType) : ℚ :=
  if steps.isEmpty then 0
  else
    let validity_score : ℚ := 0
    let has_premise := steps.any (fun s => s.type == "premise")
    let has_conclusion := steps.any (fun s => s.type == "conclusion")
    let validity_score := if has_premise && has_conclusion then validity_score + 0.5 else validity_score
    let validity_score := if 2 ≤ steps.length then validity_score + 0.3 else validity_score
    let avg_confidence := meanConfidence steps
    let validity_score := validity_score + avg_confidence * 0.2
    pymin validity_score 1

/-- Validity score as the specification words it: 0.0 on an empty step list,
otherwise the sum of a premise-and-conclusion bonus of 0.5, a length bonus of
0.3 for at least two steps, and `mean(confidence) * 0.2`, clamped to 1.0.  This
definition is written from the spec, to be compared with
`assess_logical_validity`, which is written from the source. -/
def validitySpec (steps : List ReasoningStep) : ℚ :=
  if steps.isEmpty then 0
  else
    min ((if steps.any (fun s => s.type == "premise") &&
             steps.any (fun s => s.type == "conclusion") then (0.5 : ℚ) else 0)
         + (if 2 ≤ steps.length then (0.3 : ℚ) else 0)
         + meanConfidence steps * 0.2) 1

/-- Executable check that one character list occurs contiguously inside
another. -/
def isInfixList (needle : List Char) : List Char → Bool
  | [] => needle.isEmpty
  | c :: rest => needle.isPrefixOf (c :: rest) || isInfixList needle rest

/-- Python's substring containment test `needle in haystack`. -/
def substrOf (needle haystack : String) : Bool :=
  isInfixList needle.toList haystack.toList

/-- Python's `s.split(c, 1)`: split at the first occurrence of the character
`c`, returning the text before it and the text after it.  When `c` does not
occur the whole string is returned unchanged with an empty remainder (the
source only calls this under an `in` guard). -/
def splitFirst (s : String) (c : Char) : String × String :=
  match s.toList.span (fun a => a != c) with
  | (pre, []) => (String.mk pre, "")
  | (pre, _ :: post) => (String.mk pre, String.mk post)

/-- Embedding of `ReasoningChainGenerator._extract_step_type`
(`services/reasoning_engine.py`): inspect the text before the colon for the
substrings `premise` / `conclusion`, defaulting to `inference`. -/
def extract_step_type (type_part : String) : String :=
  let type_part_lower := lower type_part
  if substrOf "premise" type_part_lower then "premise"
  else if substrOf "conclusion" type_part_lower then "conclusion"
  else "inference"

/-- Loop body of `ReasoningChainGenerator._parse_reasoning_steps`
(`services/reasoning_engine.py`): walk the lines carrying the running
`step_number` counter, which starts at 1 and is incremented exactly when a
step is appended. -/
def parse_reasoning_steps_aux : List String → Nat → List ReasoningStep
  | [], _ => []
  | rawLine :: rest, step_number =>
    let line := strip rawLine
    if !line.toList.isEmpty &&
        ((line.toList.headD ' ').isDigit || "- ".toList.isPrefixOf line.toList) then
      let parsed :=
        if line.toList.contains ':' then
          let split := splitFirst line ':'
          (extract_step_type split.1, strip split.2)
        else
          ("inference", line)
      if !parsed.2.toList.isEmpty then
        { step_number := step_number, text := parsed.2, confidence := 0.8,
          type := parsed.1, evidence_used := [] }
          :: parse_reasoning_steps_aux rest (step_number + 1)
      else
        parse_reasoning_steps_aux rest step_number
    else
      parse_reasoning_steps_aux rest step_number

/-- Embedding of `ReasoningChainGenerator._parse_reasoning_steps`: splits the
generated text on newlines and scans the lines; the `reasoning_type` argument
is accepted and, as in the source, never used. -/
def parse_reasoning_steps (generated_text : String) (_reasoning_type : String) :
    List ReasoningStep :=
  parse_reasoning_steps_aux (splitLines generated_text) 1

/-- Step numbers of a list of steps, in order of appearance. -/
def stepNumbers (steps : List ReasoningStep) : List Nat :=
  steps.map (fun s => s.step_number)

/-- Contiguity invariant claimed by the specification: the step numbers are
exactly 1, 2, ..., n in order of appearance. -/
def contiguousFromOne (steps : List ReasoningStep) : Prop :=
  stepNumbers steps = List.range' 1 steps.length

instance (steps : List ReasoningStep) : Decidable (contiguousFromOne steps) := by
  unfold contiguousFromOne; infer_instance

/-- Result of one `re.findall` match of the step pattern
`Step\s+(\d+):\s*\[([^\]]+)\]\s*-\s*(.+)` used by
`_parse_structured_reasoning`: the captured step number, the bracketed type
text, and the explanation text. -/
structure StepMatch where
  num : Nat
  typeText : String
  explanation : String
deriving DecidableEq, Repr

/-- Step construction loop of
`ReasoningChainGenerator._parse_structured_reasoning`: each regex match becomes
one step whose `step_number` is `int(step_num)` captured from the text, whose
type is the bracketed text lower-cased with spaces replaced by underscores, and
whose confidence defaults to 0.8. -/
def parse_structured_steps (step_matches : List StepMatch) : List ReasoningStep :=
  step_matches.map (fun m =>
    { step_number := m.num, text := strip m.explanation, confidence := 0.8,
      type := replaceSpaces (lower m.typeText), evidence_used := [] })

/-- Embedding of `ReasoningChainGenerator._parse_structured_reasoning`.  The
regex scans (step pattern and section extraction) are performed by Python's
`re` library; their results are taken as arguments, and everything the function
does with them is embedded: it always builds exactly one chain from whatever
steps were matched — there is no emptiness check — and returns a singleton
list.  (The surrounding `except` clause, which returns `[]`, is unreachable in
this total embedding: no statement of the body raises.) -/
def parse_structured_reasoning (step_matches : List StepMatch)
    (assumptions weaknesses evidence_requirements counterarguments : List String)
    (reasoning_type : ReasoningType) : List ReasoningChain :=
  let steps := parse_structured_steps step_matches
  let overall_confidence := if steps.isEmpty then 0 else meanConfidence steps
  let logical_validity := assess_logical_validity steps reasoning_type
  [{ steps := steps, reasoning_type := reasoning_type,
     overall_confidence := overall_confidence, logical_validity := logical_validity,
     assumptions := assumptions, weaknesses := weaknesses,
     evidence_requirements := evidence_requirements,
     counterarguments := counterarguments }]

/-- The `LogicalFallacy` enumeration from `services/reasoning_engine.py`: ten
fallacy types. -/
inductive LogicalFallacy where
  | ad_hominem
  | straw_man
  | false_dichotomy
  | slippery_slope
  | appeal_to_authority
  | circular_reasoning
  | hasty_generalization
  | false_cause
  | appeal_to_emotion
  | bandwagon
deriving DecidableEq, Repr

/-- String value of a `LogicalFallacy` member (the enum is a `str` enum). -/
def fallacyValue : LogicalFallacy → String
  | .ad_hominem => "ad_hominem"
  | .straw_man => "straw_man"
  | .false_dichotomy => "false_dichotomy"
  | .slippery_slope => "slippery_slope"
  | .appeal_to_authority => "appeal_to_authority"
  | .circular_reasoning => "circular_reasoning"
  | .hasty_generalization => "hasty_generalization"
  | .false_cause => "false_cause"
  | .appeal_to_emotion => "appeal_to_emotion"
  | .bandwagon => "bandwagon"

/-- Embedding of `ReasoningChainGenerator._load_fallacy_patterns`: the pattern
table maps five of the ten fallacy types to two regular-expression pattern
strings each; the remaining five enum members have no entry.  The pattern
strings are transcribed verbatim from the source (Python raw strings). -/
def fallacy_patterns : List (LogicalFallacy × List String) :=
  [ (.ad_hominem,
      [ "\\b(you|they)\\s+(are|is)\\s+(stupid|wrong|biased|incompetent)",
        "\\b(attack|dismiss|ignore)\\s+the\\s+(person|individual|source)" ]),
    (.straw_man,
      [ "\\b(claims?|says?|argues?)\\s+that\\s+.\x7b20,\x7d\\s+(but|however)\\s+that\\\x27s\\s+not",
        "\\b(distort|misrepresent|exaggerate)\\s+.\x7b10,\x7d\\s+(position|argument)" ]),
    (.false_dichotomy,
      [ "\\b(either|only|must)\\s+.\x7b10,\x7d\\s+(or|otherwise)",
        "\\b(no\\s+other|only\\s+two)\\s+(option|choice|way)" ]),
    (.circular_reasoning,
      [ "\\bbecause\\s+.\x7b10,\x7d\\s+because\\b",
        "\\b(prove|show|demonstrate)\\s+.\x7b10,\x7d\\s+by\\s+assuming" ]),
    (.hasty_generalization,
      [ "\\b(all|every|always|never)\\s+.\x7b10,\x7d\\s+(are|is|do|does)",
        "\\b(one|few|some)\\s+.\x7b10,\x7d\\s+(therefore|so)\\s+(all|every)" ]) ]

/-- Embedding of `ReasoningChainGenerator._get_fallacy_description`: a static
dictionary over five fallacy types, with `Unknown fallacy` as the
`dict.get` default for the other members. -/
def get_fallacy_description : LogicalFallacy → String
  | .ad_hominem => "Attacking the person making the argument rather than the argument itself"
  | .straw_man => "Misrepresenting someone\x27s argument to make it easier to attack"
  | .false_dichotomy => "Presenting only two options when more exist"
  | .circular_reasoning => "Using the conclusion as part of the premise"
  | .hasty_generalization => "Making broad generalizations from limited examples"
  | _ => "Unknown fallacy"

/-- Result of one `re.finditer` match: `match.span()` and `match.group()`. -/
structure ReMatch where
  start : Nat
  stop : Nat
  excerpt : String
deriving DecidableEq, Repr

/-- Fallacy record appended by `_detect_fallacies` for each pattern match. -/
structure FallacyRecord where
  type : String
  description : String
  confidence : ℚ
  location : Nat × Nat
  text_excerpt : String
deriving DecidableEq, Repr

/-- Record built for one match of one pattern of one fallacy type in
`_detect_fallacies`. -/
def mkFallacyRecord (fallacy : LogicalFallacy) (m : ReMatch) : FallacyRecord :=
  { type := fallacyValue fallacy, description := get_fallacy_description fallacy,
    confidence := 0.7, location := (m.start, m.stop), text_excerpt := m.excerpt }

/-- Concatenation of all step texts, `" ".join(step.text for step in steps)`,
as formed at the start of `_detect_fallacies`. -/
def fullText (chain : ReasoningChain) : String :=
  String.mk (List.intercalate " ".toList (chain.steps.map (fun s => s.text.toList)))

/-- Embedding of `ReasoningChainGenerator._detect_fallacies`.  The regular
expression engine is Python's `re` library, taken here as the argument
`finditer` (pattern and subject text to list of matches); the nested
accumulation over the pattern table and the record construction are embedded
from the source. -/
def detect_fallacies (finditer : String → String → List ReMatch)
    (chain : ReasoningChain) : List FallacyRecord :=
  let full_text := fullText chain
  fallacy_patterns.foldl
    (fun acc fp =>
      fp.2.foldl
        (fun acc2 pattern =>
          acc2 ++ (finditer pattern full_text).map (mkFallacyRecord fp.1))
        acc)
    []

/-- Gap record appended by `_identify_logical_gaps`. -/
structure GapRecord where
  type : String
  description : String
  severity : ℚ
  suggestion : String
deriving DecidableEq, Repr

/-- Record emitted by the missing-premise check of `_identify_logical_gaps`. -/
def missingPremiseGap : GapRecord :=
  { type := "missing_premise",
    description := "No clear premises identified in the reasoning chain",
    severity := 0.8,
    suggestion := "Identify and state the foundational assumptions" }

/-- Record emitted by the weak-connection check for the pair of steps at
positions `i` and `i+1` (0-based) of the chain. -/
def weakConnectionGap (i : Nat) : GapRecord :=
  { type := "weak_connection",
    description := "Weak logical connection between steps " ++ toString (i + 1)
      ++ " and " ++ toString (i + 2),
    severity := 0.6,
    suggestion := "Provide clearer logical bridge between these steps" }

/-- Record emitted by the unsupported-assumption check for the premise step
numbered `n`. -/
def unsupportedAssumptionGap (n : Nat) : GapRecord :=
  { type := "unsupported_assumption",
    description := "Unsupported assumption in step " ++ toString n,
    severity := 0.7,
    suggestion := "Provide evidence or justification for this assumption" }

/-- The fixed connective-word list of
`ReasoningChainGenerator._steps_logically_connected`. -/
def connecting_words : List String :=
  ["therefore", "thus", "hence", "because", "since", "given that", "it follows"]

/-- Embedding of `ReasoningChainGenerator._steps_logically_connected`: the
first step is ignored; the second step's text, lower-cased, is searched for any
of the connective words. -/
def steps_logically_connected (_step1 step2 : ReasoningStep) : Bool :=
  connecting_words.any (fun word => substrOf word (lower step2.text))

/-- Placeholder step used to read `chain.steps[i]` at indices the surrounding
loop keeps in range. -/
def dummyStep : ReasoningStep :=
  { step_number := 0, text := "", confidence := 0, type := "", evidence_used := [] }

/-- Embedding of `ReasoningChainGenerator._identify_logical_gaps`.  The three
checks run in source order, appending to one accumulator list: the
missing-premise check, then the weak-connection check over each adjacent index
pair, then the unsupported-assumption check over each step.  The `evidence`
argument is accepted and, as in the source, never used. -/
def identify_logical_gaps (chain : ReasoningChain) (_evidence : List String) :
    List GapRecord :=
  let gaps : List GapRecord := []
  let gaps :=
    if chain.steps.any (fun s => s.type == "premise") then gaps
    else gaps ++ [missingPremiseGap]
  let gaps :=
    (List.range (chain.steps.length - 1)).foldl
      (fun acc i =>
        if steps_logically_connected (chain.steps.getD i dummyStep)
            (chain.steps.getD (i + 1) dummyStep) then acc
        else acc ++ [weakConnectionGap i])
      gaps
  chain.steps.foldl
    (fun acc step =>
      if step.type == "premise" && step.evidence_used.isEmpty then
        acc ++ [unsupportedAssumptionGap step.step_number]
      else acc)
    gaps

/-- Result dictionary of `ReasoningChainGenerator._assess_premise_strength`;
the `individual_strengths` key is present in one branch only, modelled with an
`Option`. -/
structure PremiseStrengthResult where
  overall_strength : ℚ
  premise_count : Nat
  individual_strengths : Option (List (Nat × ℚ))
deriving DecidableEq, Repr

/-- Embedding of `ReasoningChainGenerator._assess_premise_strength`: premise
steps are filtered; with none, a two-key dictionary is returned; otherwise the
per-premise strengths (confidence, plus 0.2 when evidence is present, clamped
to 1.0) are accumulated and averaged, and the `individual_strengths` entries
pair each premise step number with its raw confidence. -/
def assess_premise_strength (chain : ReasoningChain) : PremiseStrengthResult :=
  let premise_steps := chain.steps.filter (fun s => s.type == "premise")
  if premise_steps.isEmpty then
    { overall_strength := 0, premise_count := 0, individual_strengths := none }
  else
    let total_strength :=
      premise_steps.foldl
        (fun total step =>
          let strength := step.confidence
          let strength := if !step.evidence_used.isEmpty then strength + 0.2 else strength
          total + pymin strength 1)
        0
    { overall_strength := total_strength / premise_steps.length,
      premise_count := premise_steps.length,
      individual_strengths :=
        some (premise_steps.map (fun s => (s.step_number, s.confidence))) }

/-- Outcome of one call to an external LLM backend API: a response text, or a
raised exception with its message. -/
inductive CallResult where
  | ok (text : String)
  | exn (message : String)
deriving DecidableEq, Repr

/-- Environment of one generation request: which backend clients are
configured, what each backend call would return, the regular-expression
engine's results on a response text, and the local text-generation pipeline
(`None` when model loading failed).  Everything here is external to the
repository's code (API clients, `re`, the transformers pipeline). -/
structure GenEnv where
  anthropic_client : Bool
  openai_client : Bool
  anthropic_call : CallResult
  openai_call : CallResult
  step_matcher : String → List StepMatch
  section_lines : String → String → List String
  generator : Option (String → String)

/-- Embedding of `ReasoningChainGenerator._generate_anthropic_reasoning`: on a
successful call the response text is parsed; an exception from the call is
caught by the function's own `except` clause, which returns the empty list. -/
def generate_anthropic_reasoning (env : GenEnv) (reasoning_type : ReasoningType) :
    List ReasoningChain :=
  match env.anthropic_call with
  | .ok text =>
      parse_structured_reasoning (env.step_matcher text)
        (env.section_lines "ASSUMPTIONS" text)
        (env.section_lines "POTENTIAL WEAKNESSES" text)
        (env.section_lines "EVIDENCE REQUIREMENTS" text)
        (env.section_lines "COUNTERARGUMENTS" text)
        reasoning_type
  | .exn _ => []

/-- Embedding of `ReasoningChainGenerator._generate_openai_reasoning`, with the
same catch-and-return-empty behaviour as the Anthropic variant. -/
def generate_openai_reasoning (env : GenEnv) (reasoning_type : ReasoningType) :
    List ReasoningChain :=
  match env.openai_call with
  | .ok text =>
      parse_structured_reasoning (env.step_matcher text)
        (env.section_lines "ASSUMPTIONS" text)
        (env.section_lines "POTENTIAL WEAKNESSES" text)
        (env.section_lines "EVIDENCE REQUIREMENTS" text)
        (env.section_lines "COUNTERARGUMENTS" text)
        reasoning_type
  | .exn _ => []

/-- Evidence bullet list `"\n".join(f"- {ev}" for ev in evidence)` used by the
fallback prompt builders. -/
def evidenceText (evidence : List String) : String :=
  String.intercalate "\n" (evidence.map (fun ev => "- " ++ ev))

/-- Embedding of `ReasoningChainGenerator._build_deductive_prompt`. -/
def build_deductive_prompt (claim : String) (evidence : List String) : String :=
  "\nGiven the following evidence:\n" ++ evidenceText evidence ++
  "\n\nUsing deductive reasoning, provide step-by-step logical reasoning to support or refute the claim: \"" ++
  claim ++ "\"\n\nFormat your response as numbered steps:\n1. [premise/inference/conclusion]: [reasoning step]\n2. [premise/inference/conclusion]: [reasoning step]\n...\n"

/-- Embedding of `ReasoningChainGenerator._build_inductive_prompt`. -/
def build_inductive_prompt (claim : String) (evidence : List String) : String :=
  "\nGiven the following observations:\n" ++ evidenceText evidence ++
  "\n\nUsing inductive reasoning, provide step-by-step logical reasoning to support the general claim: \"" ++
  claim ++ "\"\n\nFormat your response as numbered steps:\n1. [premise/inference/conclusion]: [reasoning step]\n2. [premise/inference/conclusion]: [reasoning step]\n...\n"

/-- Embedding of `ReasoningChainGenerator._build_abductive_prompt`. -/
def build_abductive_prompt (claim : String) (evidence : List String) : String :=
  "\nGiven the following observations:\n" ++ evidenceText evidence ++
  "\n\nUsing abductive reasoning, provide the best explanation for why \"" ++
  claim ++ "\" might be true.\n\nFormat your response as numbered steps:\n1. [premise/inference/conclusion]: [reasoning step]\n2. [premise/inference/conclusion]: [reasoning step]\n...\n"

/-- Embedding of `ReasoningChainGenerator._generate_reasoning_steps`: with no
local model loaded, the empty list; otherwise the generated continuation text
is parsed line-by-line and the result truncated to `max_steps`. -/
def generate_reasoning_steps (env : GenEnv) (prompt : String) (max_steps : Nat)
    (reasoning_type : String) : List ReasoningStep :=
  match env.generator with
  | none => []
  | some generate =>
      (parse_reasoning_steps (generate prompt) reasoning_type).take max_steps

/-- Embedding of `ReasoningChainGenerator._generate_deductive_reasoning`: the
fallback builder always wraps whatever steps were parsed — possibly none — in
exactly one chain. -/
def generate_deductive_reasoning (env : GenEnv) (claim : String)
    (evidence : List String) (max_steps : Nat) : List ReasoningChain :=
  let prompt := build_deductive_prompt claim evidence
  let steps := generate_reasoning_steps env prompt max_steps "deductive"
  let overall_confidence := if steps.isEmpty then 0 else meanConfidence steps
  let logical_validity := assess_logical_validity steps ReasoningType.deductive
  [{ steps := steps, reasoning_type := ReasoningType.deductive,
     overall_confidence := overall_confidence, logical_validity := logical_validity }]

/-- Embedding of `ReasoningChainGenerator._generate_inductive_reasoning`. -/
def generate_inductive_reasoning (env : GenEnv) (claim : String)
    (evidence : List String) (max_steps : Nat) : List ReasoningChain :=
  let prompt := build_inductive_prompt claim evidence
  let steps := generate_reasoning_steps env prompt max_steps "inductive"
  let overall_confidence := if steps.isEmpty then 0 else meanConfidence steps
  let logical_validity := assess_logical_validity steps ReasoningType.inductiveR
  [{ steps := steps, reasoning_type := ReasoningType.inductiveR,
     overall_confidence := overall_confidence, logical_validity := logical_validity }]

/-- Embedding of `ReasoningChainGenerator._generate_abductive_reasoning`. -/
def generate_abductive_reasoning (env : GenEnv) (claim : String)
    (evidence : List String) (max_steps : Nat) : List ReasoningChain :=
  let prompt := build_abductive_prompt claim evidence
  let steps := generate_reasoning_steps env prompt max_steps "abductive"
  let overall_confidence := if steps.isEmpty then 0 else meanConfidence steps
  let logical_validity := assess_logical_validity steps ReasoningType.abductive
  [{ steps := steps, reasoning_type := ReasoningType.abductive,
     overall_confidence := overall_confidence, logical_validity := logical_validity }]

/-- Embedding of `ReasoningChainGenerator._generate_fallback_reasoning` (the
local Fallback Chain Builder): dispatch on the reasoning type. -/
def generate_fallback_reasoning (env : GenEnv) (claim : String)
    (evidence : List String) (reasoning_type : ReasoningType) (max_steps : Nat) :
    List ReasoningChain :=
  match reasoning_type with
  | .deductive => generate_deductive_reasoning env claim evidence max_steps
  | .inductiveR => generate_inductive_reasoning env claim evidence max_steps
  | .abductive => generate_abductive_reasoning env claim evidence max_steps

/-- Embedding of `ReasoningChainGenerator._generate_llm_reasoning`: prefer the
Anthropic backend, then the OpenAI backend, else the local fallback builder.
The function's own `except` clause (which would fall back) is unreachable in
this embedding because each branch is total: the backend-specific functions
catch the exceptions of their API calls themselves. -/
def generate_llm_reasoning (env : GenEnv) (claim : String)
    (evidence : List String) (reasoning_type : ReasoningType) (max_steps : Nat) :
    List ReasoningChain :=
  if env.anthropic_client then generate_anthropic_reasoning env reasoning_type
  else if env.openai_client then generate_openai_reasoning env reasoning_type
  else generate_fallback_reasoning env claim evidence reasoning_type max_steps

/-- Body of the `ReasoningValidationRequest` handled by the
`/reasoning/validate` endpoint in `main.py`. -/
structure ValidationRequest where
  claim : String
  reasoning_steps : List String
  evidence : List String
  reasoning_type : ReasoningType

/-- Step construction of `validate_reasoning_logic` (`main.py`): every request
step string becomes a step with 1-based index, default confidence 0.8 and
default type `inference`. -/
def build_validation_steps (reasoning_steps : List String) : List ReasoningStep :=
  reasoning_steps.enum.map (fun p =>
    { step_number := p.1 + 1, text := p.2, confidence := 0.8, type := "inference",
      evidence_used := [] })

/-- Fields of the JSON object returned by `validate_reasoning_logic` that the
claims are about. -/
structure ValidationResult where
  validation_score : ℚ
  logical_validity : ℚ
  is_valid : Bool
  logical_gaps : List GapRecord
  fallacies : List FallacyRecord

/-- Clamp to the unit interval, `max(0.0, min(1.0, x))`. -/
def clamp01 (x : ℚ) : ℚ := max 0 (min 1 x)

/-- Embedding of the `/reasoning/validate` endpoint `validate_reasoning_logic`
(`main.py`): build default-typed steps, assess validity, identify gaps, detect
fallacies, subtract the gap and fallacy penalties when the respective lists are
non-empty, clamp, and compare against the 0.6 threshold. -/
def validate_reasoning_logic (finditer : String → String → List ReMatch)
    (request : ValidationRequest) : ValidationResult :=
  let steps := build_validation_steps request.reasoning_steps
  let temp_chain : ReasoningChain :=
    { steps := steps, reasoning_type := request.reasoning_type,
      overall_confidence := 0.8, logical_validity := 0 }
  let logical_validity := assess_logical_validity steps request.reasoning_type
  let logical_gaps := identify_logical_gaps temp_chain request.evidence
  let fallacies := detect_fallacies finditer temp_chain
  let validation_score := logical_validity
  let validation_score :=
    if !logical_gaps.isEmpty then
      validation_score - (logical_gaps.length : ℚ) * 0.1
    else validation_score
  let validation_score :=
    if !fallacies.isEmpty then
      validation_score - (fallacies.length : ℚ) * 0.15
    else validation_score
  let validation_score := pymax 0 (pymin 1 validation_score)
  { validation_score := validation_score, logical_validity := logical_validity,
    is_valid := decide (validation_score > 0.6),
    logical_gaps := logical_gaps, fallacies := fallacies }

/-- Inconsistency message appended when chain count and claim count differ. -/
def mismatch_message : String :=
  "Mismatch between number of claims and reasoning chains"

/-- Inconsistency message appended when more than one reasoning type occurs. -/
def mixed_types_message : String :=
  "Mixed reasoning types may create logical inconsistencies"

/-- Embedding of `_identify_claim_inconsistencies` (`main.py`): two heuristic
checks appending to one accumulator.  (`hasattr(chain, 'reasoning_type')`
always holds for a `ReasoningChain`, so the comprehension filter is the
identity.) -/
def identify_claim_inconsistencies (claims : List String)
    (chains : List ReasoningChain) : List String :=
  let inconsistencies : List String := []
  let inconsistencies :=
    if chains.length ≠ claims.length then inconsistencies ++ [mismatch_message]
    else inconsistencies
  let reasoning_types := chains.map (fun c => c.reasoning_type)
  if reasoning_types.dedup.length > 1 then inconsistencies ++ [mixed_types_message]
  else inconsistencies

/-- Chain collection loop of `analyze_multi_claim_reasoning` (`main.py`): the
per-claim generation results are concatenated, results with no chains
contributing nothing. -/
def collect_primary_chains (results : List (List ReasoningChain)) :
    List ReasoningChain :=
  results.foldl (fun acc r => if !r.isEmpty then acc ++ r else acc) []

instance : Inhabited ReasoningChain :=
  ⟨{ steps := [], reasoning_type := .deductive, overall_confidence := 0,
     logical_validity := 0 }⟩

/-- Concrete generation environment: the Anthropic client is configured, its
API call raises, and the local model is loaded and yields one parseable step
line. -/
def c2Env : GenEnv :=
  { anthropic_client := true, openai_client := false,
    anthropic_call := .exn "API connection error",
    openai_call := .exn "API connection error",
    step_matcher := fun _ => [],
    section_lines := fun _ _ => [],
    generator := some (fun _ => "1. premise: Exercise improves mood") }

/-- Concrete generation environment with only the OpenAI client configured and
its API call raising. -/
def c2EnvOpenai : GenEnv :=
  { anthropic_client := false, openai_client := true,
    anthropic_call := .exn "API connection error",
    openai_call := .exn "API connection error",
    step_matcher := fun _ => [],
    section_lines := fun _ _ => [],
    generator := some (fun _ => "1. premise: Exercise improves mood") }

/-- Concrete chain with one evidence-backed premise step of confidence 0.9. -/
def c6Chain : ReasoningChain :=
  { steps := [{ step_number := 1, text := "Exercise releases endorphins",
                confidence := 0.9, type := "premise",
                evidence_used := ["Clinical studies on endorphin release"] }],
    reasoning_type := .deductive, overall_confidence := 0.9,
    logical_validity := 0 }

/-!
Theorems.  Shared lemmas come first, then for each claim its theorem, with its
witness or counterexample where applicable.
-/

theorem pymin_eq_min (a b : ℚ) : pymin a b = min a b :=
  (min_def a b).symm

theorem pymax_eq_max (a b : ℚ) : pymax a b = max a b := by
  unfold pymax
  rcases le_total a b with h | h
  · rcases eq_or_lt_of_le h with rfl | hlt
    · simp
    · rw [if_neg (not_le.mpr hlt), max_eq_right h]
  · rw [if_pos h, max_eq_left h]

theorem assess_logical_validity_eq_spec (steps : List ReasoningStep)
    (rt : ReasoningType) :
    assess_logical_validity steps rt = validitySpec steps := by
  unfold assess_logical_validity validitySpec
  by_cases he : steps.isEmpty
  · simp [he]
  · simp only [he, if_false]
    by_cases h1 : steps.any (fun s => s.type == "premise") &&
        steps.any (fun s => s.type == "conclusion") <;>
      by_cases h2 : 2 ≤ steps.length <;>
        simp [h1, h2, pymin_eq_min]

/-- Claim C1: `assess_validity` computes, for every list of steps and every
reasoning type, 0.0 on an empty step list and otherwise the score
0.5·[has premise and conclusion] + 0.3·[at least 2 steps] +
mean(confidence)·0.2 clamped to at most 1.0, independently of the reasoning
type. -/
theorem C1_assess_validity_formula (steps : List ReasoningStep)
    (rt rt' : ReasoningType) :
    assess_logical_validity steps rt = validitySpec steps ∧
    assess_logical_validity steps rt = assess_logical_validity steps rt' := by
  refine ⟨assess_logical_validity_eq_spec steps rt, ?_⟩
  rw [assess_logical_validity_eq_spec steps rt, assess_logical_validity_eq_spec steps rt']

theorem foldl_append_bind {α β : Type} (g : α → List β) :
    ∀ (l : List α) (init : List β),
      l.foldl (fun acc a => acc ++ g a) init = init ++ l.flatMap g := by
  intro l
  induction l with
  | nil => intro init; simp
  | cons a t ih => intro init; simp [ih, List.append_assoc]

theorem foldl_skip_append {α β : Type} (p : α → Bool) (f : α → β) :
    ∀ (l : List α) (init : List β),
      l.foldl (fun acc a => if p a then acc else acc ++ [f a]) init
        = init ++ l.filterMap (fun a => if p a then none else some (f a)) := by
  intro l
  induction l with
  | nil => intro init; simp
  | cons a t ih =>
    intro init
    by_cases h : p a <;> simp [h, ih, List.append_assoc]

theorem foldl_take_append {α β : Type} (p : α → Bool) (f : α → β) :
    ∀ (l : List α) (init : List β),
      l.foldl (fun acc a => if p a then acc ++ [f a] else acc) init
        = init ++ l.filterMap (fun a => if p a then some (f a) else none) := by
  intro l
  induction l with
  | nil => intro init; simp
  | cons a t ih =>
    intro init
    by_cases h : p a <;> simp [h, ih, List.append_assoc]

theorem detect_fallacies_eq (finditer : String → String → List ReMatch)
    (chain : ReasoningChain) :
    detect_fallacies finditer chain
      = fallacy_patterns.flatMap (fun fp =>
          fp.2.flatMap (fun pattern =>
            (finditer pattern (fullText chain)).map (mkFallacyRecord fp.1))) := by
  unfold detect_fallacies
  simp only [foldl_append_bind, List.nil_append]

/-- Claim C4 (amended): `detect_fallacies` tests the fixed pattern table, whose
keys are only five of the ten fallacy types (ad_hominem, straw_man,
false_dichotomy, circular_reasoning, hasty_generalization; the other five have
no patterns and are never tested), each pattern against the concatenation of
all step texts, and every match produces one separate record with confidence
0.7, the static description of the fallacy type, the match's character span
and the matched substring. -/
theorem C4_detect_fallacies_records (finditer : String → String → List ReMatch)
    (chain : ReasoningChain) :
    fallacy_patterns.map Prod.fst =
      [LogicalFallacy.ad_hominem, LogicalFallacy.straw_man,
       LogicalFallacy.false_dichotomy, LogicalFallacy.circular_reasoning,
       LogicalFallacy.hasty_generalization] ∧
    detect_fallacies finditer chain
      = fallacy_patterns.flatMap (fun fp =>
          fp.2.flatMap (fun pattern =>
            (finditer pattern (fullText chain)).map (mkFallacyRecord fp.1))) ∧
    (∀ (f : LogicalFallacy) (m : ReMatch),
      (mkFallacyRecord f m).confidence = 0.7 ∧
      (mkFallacyRecord f m).description = get_fallacy_description f ∧
      (mkFallacyRecord f m).location = (m.start, m.stop) ∧
      (mkFallacyRecord f m).text_excerpt = m.excerpt) :=
  ⟨rfl, detect_fallacies_eq finditer chain, fun _ _ => ⟨rfl, rfl, rfl, rfl⟩⟩

/-- Claim C4, counterexample to the claim as stated: `slippery_slope` is one of
the ten enumerated fallacy types, but the pattern table holds no patterns for
it, so `detect_fallacies` never tests it. -/
theorem C4_counterexample :
    LogicalFallacy.slippery_slope ∉ fallacy_patterns.map Prod.fst := by
  decide

theorem identify_logical_gaps_eq (chain : ReasoningChain)
    (evidence : List String) :
    identify_logical_gaps chain evidence =
      (if chain.steps.any (fun s => s.type == "premise") then []
       else [missingPremiseGap])
      ++ (List.range (chain.steps.length - 1)).filterMap (fun i =>
            if steps_logically_connected (chain.steps.getD i dummyStep)
                (chain.steps.getD (i + 1) dummyStep) then none
            else some (weakConnectionGap i))
      ++ chain.steps.filterMap (fun step =>
            if step.type == "premise" && step.evidence_used.isEmpty then
              some (unsupportedAssumptionGap step.step_number)
            else none) := by
  unfold identify_logical_gaps
  rw [foldl_take_append, foldl_skip_append]
  by_cases h : chain.steps.any (fun s => s.type == "premise") <;>
    simp [h, List.append_assoc]

/-- Claim C7: `identify_gaps` emits one missing_premise record (severity 0.8)
when no step has type premise, one weak_connection record (severity 0.6) for
each adjacent pair whose later step's text contains no connective word, and one
unsupported_assumption record (severity 0.7) for each premise step without
evidence — accumulated in exactly that order: the missing-premise check, then
the pairwise checks in step order, then the premise checks in step order. -/
theorem C7_identify_gaps_order (chain : ReasoningChain) (evidence : List String) :
    identify_logical_gaps chain evidence =
      (if chain.steps.any (fun s => s.type == "premise") then []
       else [missingPremiseGap])
      ++ (List.range (chain.steps.length - 1)).filterMap (fun i =>
            if steps_logically_connected (chain.steps.getD i dummyStep)
                (chain.steps.getD (i + 1) dummyStep) then none
            else some (weakConnectionGap i))
      ++ chain.steps.filterMap (fun step =>
            if step.type == "premise" && step.evidence_used.isEmpty then
              some (unsupportedAssumptionGap step.step_number)
            else none) ∧
    missingPremiseGap.severity = 0.8 ∧
    (∀ i : Nat, (weakConnectionGap i).severity = 0.6) ∧
    (∀ n : Nat, (unsupportedAssumptionGap n).severity = 0.7) ∧
    (∀ step1 step2 : ReasoningStep,
      steps_logically_connected step1 step2 =
        connecting_words.any (fun word => substrOf word (lower step2.text))) :=
  ⟨identify_logical_gaps_eq chain evidence, rfl, fun _ => rfl, fun _ => rfl,
   fun _ _ => rfl⟩

/-- Claim C3 (amended): when the Structured-Response Parser finds no line
matching the step pattern, it does not return an empty list of chains: it
returns a singleton list holding one chain with zero steps, overall confidence
0.0 and logical validity 0.0 (carrying whatever section lists were parsed). -/
theorem C3_no_step_lines_yield_zero_step_chain
    (assumptions weaknesses evidence_requirements counterarguments : List String)
    (rt : ReasoningType) :
    parse_structured_reasoning [] assumptions weaknesses evidence_requirements
        counterarguments rt =
      [{ steps := [], reasoning_type := rt, overall_confidence := 0,
         logical_validity := 0, assumptions := assumptions,
         weaknesses := weaknesses,
         evidence_requirements := evidence_requirements,
         counterarguments := counterarguments }] := by
  simp [parse_structured_reasoning, parse_structured_steps,
    assess_logical_validity]

/-- Claim C3, counterexample to the claim as stated: with zero step matches the
parser returns a non-empty chain list (one chain with zero steps), not an empty
list. -/
theorem C3_counterexample :
    parse_structured_reasoning [] [] [] [] [] ReasoningType.deductive ≠ [] := by
  simp [parse_structured_reasoning]

/-- Claim C2 (amended): when an external backend is selected and its call
raises, the exception is caught inside the backend-specific function, which
returns an empty chain list; the generation function hands that empty list to
the caller and the local Fallback Chain Builder does not run (it runs only when
no external backend is configured). -/
theorem C2_backend_exception_yields_empty (env : GenEnv) (claim : String)
    (evidence : List String) (rt : ReasoningType) (max_steps : Nat)
    (msg : String) :
    (env.anthropic_client = true → env.anthropic_call = .exn msg →
      generate_llm_reasoning env claim evidence rt max_steps = []) ∧
    (env.anthropic_client = false → env.openai_client = true →
      env.openai_call = .exn msg →
      generate_llm_reasoning env claim evidence rt max_steps = []) := by
  constructor
  · intro h1 h2
    simp [generate_llm_reasoning, h1, generate_anthropic_reasoning, h2]
  · intro h1 h2 h3
    simp [generate_llm_reasoning, h1, h2, generate_openai_reasoning, h3]

/-- Witness for C2: the two hypotheses of the amended claim are satisfiable, on
an environment whose Anthropic call raises and on one whose OpenAI call
raises. -/
theorem C2_backend_exception_yields_empty_witness :
    (c2Env.anthropic_client = true ∧
      c2Env.anthropic_call = .exn "API connection error" ∧
      generate_llm_reasoning c2Env "Exercise improves mental health" []
        ReasoningType.deductive 5 = []) ∧
    (c2EnvOpenai.anthropic_client = false ∧ c2EnvOpenai.openai_client = true ∧
      c2EnvOpenai.openai_call = .exn "API connection error" ∧
      generate_llm_reasoning c2EnvOpenai "Exercise improves mental health" []
        ReasoningType.deductive 5 = []) :=
  ⟨⟨rfl, rfl,
    (C2_backend_exception_yields_empty c2Env "Exercise improves mental health"
      [] ReasoningType.deductive 5 "API connection error").1 rfl rfl⟩,
   ⟨rfl, rfl, rfl,
    (C2_backend_exception_yields_empty c2EnvOpenai
      "Exercise improves mental health" [] ReasoningType.deductive 5
      "API connection error").2 rfl rfl rfl⟩⟩

/-- Claim C2, counterexample to the claim as stated: with the Anthropic backend
selected and its call raising, the caller receives the empty list, not the
result of the local fallback builder (which here would return one chain built
from the loaded local model's output). -/
theorem C2_counterexample :
    generate_llm_reasoning c2Env "Exercise improves mental health" []
        ReasoningType.deductive 5
      ≠ generate_fallback_reasoning c2Env "Exercise improves mental health" []
        ReasoningType.deductive 5 := by
  intro h
  rw [show generate_llm_reasoning c2Env "Exercise improves mental health" []
      ReasoningType.deductive 5 = [] from rfl] at h
  simp [generate_fallback_reasoning, generate_deductive_reasoning] at h

theorem parse_reasoning_steps_aux_numbers (lines : List String) (n : Nat) :
    stepNumbers (parse_reasoning_steps_aux lines n) =
      List.range' n (parse_reasoning_steps_aux lines n).length := by
  induction lines generalizing n with
  | nil => simp [parse_reasoning_steps_aux, stepNumbers]
  | cons rawLine rest ih =>
    simp only [parse_reasoning_steps_aux]
    split
    · split <;> split <;>
        first
          | exact ih n
          | (simp only [stepNumbers, List.map_cons, List.length_cons,
               List.range'_succ]
             exact congrArg (List.cons n) (ih (n + 1)))
    · exact ih n

theorem range'_take :
    ∀ (n s m : Nat), (List.range' s n).take m = List.range' s (min m n)
  | 0, s, m => by simp
  | n + 1, s, 0 => by simp
  | n + 1, s, m + 1 => by
    rw [List.range'_succ, List.take_succ_cons, range'_take n (s + 1) m,
      Nat.succ_min_succ, List.range'_succ]

theorem contiguousFromOne_take (steps : List ReasoningStep) (m : Nat)
    (h : contiguousFromOne steps) : contiguousFromOne (steps.take m) := by
  unfold contiguousFromOne stepNumbers at *
  rw [List.map_take, h, range'_take, List.length_take]

theorem parse_reasoning_steps_contiguous (text : String) (rts : String) :
    contiguousFromOne (parse_reasoning_steps text rts) := by
  unfold contiguousFromOne parse_reasoning_steps at *
  exact parse_reasoning_steps_aux_numbers _ 1

theorem generate_reasoning_steps_contiguous (env : GenEnv) (prompt : String)
    (max_steps : Nat) (rts : String) :
    contiguousFromOne (generate_reasoning_steps env prompt max_steps rts) := by
  unfold generate_reasoning_steps
  cases env.generator with
  | none => simp [contiguousFromOne, stepNumbers]
  | some g =>
    exact contiguousFromOne_take _ _ (parse_reasoning_steps_contiguous _ _)

/-- Claim C5 (amended): chains produced by the fallback building path always
have step numbers that are contiguous integers starting at 1 in order of
appearance; chains produced by structured-response parsing instead carry the
step numbers captured from the response text verbatim, so their numbering is
contiguous from 1 only when the response happens to number its steps
1, 2, 3, .... -/
theorem C5_step_numbering (env : GenEnv) (claim : String)
    (evidence : List String) (rt : ReasoningType) (max_steps : Nat)
    (step_matches : List StepMatch)
    (assumptions weaknesses evidence_requirements counterarguments : List String) :
    (∀ chain ∈ generate_fallback_reasoning env claim evidence rt max_steps,
      contiguousFromOne chain.steps) ∧
    (∀ chain ∈ parse_structured_reasoning step_matches assumptions weaknesses
        evidence_requirements counterarguments rt,
      stepNumbers chain.steps = step_matches.map (fun m => m.num)) := by
  constructor
  · intro chain hmem
    cases rt <;>
      simp only [generate_fallback_reasoning, generate_deductive_reasoning,
        generate_inductive_reasoning, generate_abductive_reasoning,
        List.mem_singleton] at hmem <;>
      subst hmem <;>
      exact generate_reasoning_steps_contiguous env _ max_steps _
  · intro chain hmem
    simp only [parse_structured_reasoning, List.mem_singleton] at hmem
    subst hmem
    simp [stepNumbers, parse_structured_steps, List.map_map, Function.comp]

/-- Witness for C5: a fallback-built chain of the concrete environment `c2Env`
has contiguous numbering, and a parsed chain built from the single match
`Step 2` carries the captured number 2. -/
theorem C5_step_numbering_witness :
    contiguousFromOne
      ((generate_fallback_reasoning c2Env "Exercise improves mental health" []
          ReasoningType.deductive 5).headI.steps) ∧
    stepNumbers
      ((parse_structured_reasoning
          [{ num := 2, typeText := "PREMISE", explanation := "All men are mortal" }]
          [] [] [] [] ReasoningType.deductive).headI.steps) = [2] := by
  constructor
  · exact (C5_step_numbering c2Env "Exercise improves mental health" []
      ReasoningType.deductive 5 [] [] [] [] []).1 _ (List.mem_singleton_self _)
  · have h2 := (C5_step_numbering c2Env "Exercise improves mental health" []
      ReasoningType.deductive 5
      [{ num := 2, typeText := "PREMISE", explanation := "All men are mortal" }]
      [] [] [] []).2
      ((parse_structured_reasoning
          [{ num := 2, typeText := "PREMISE", explanation := "All men are mortal" }]
          [] [] [] [] ReasoningType.deductive).headI)
      (List.mem_singleton_self _)
    rw [h2]
    rfl

/-- Claim C5, counterexample to the claim as stated: a structured response
whose single step line is numbered 2 produces a chain whose step numbers are
[2] — not contiguous integers starting at 1. -/
theorem C5_counterexample :
    ¬ ∀ chain ∈ parse_structured_reasoning
        [{ num := 2, typeText := "PREMISE", explanation := "All men are mortal" }]
        [] [] [] [] ReasoningType.deductive,
      contiguousFromOne chain.steps := by
  intro h
  have hc := h _ (List.mem_singleton_self _)
  simp [contiguousFromOne, stepNumbers, parse_structured_steps,
    parse_structured_reasoning] at hc

theorem foldl_add_map (f : ReasoningStep → ℚ) :
    ∀ (l : List ReasoningStep) (init : ℚ),
      l.foldl (fun total s => total + f s) init = init + (l.map f).sum := by
  intro l
  induction l with
  | nil => intro init; simp
  | cons a t ih =>
    intro init
    simp only [List.foldl_cons, List.map_cons, List.sum_cons, ih]
    ring

theorem assess_premise_strength_nonempty (chain : ReasoningChain)
    (h : (chain.steps.filter (fun s => s.type == "premise")).isEmpty = false) :
    (assess_premise_strength chain).overall_strength =
      ((chain.steps.filter (fun s => s.type == "premise")).map (fun step =>
          pymin (if !step.evidence_used.isEmpty then step.confidence + 0.2
                 else step.confidence) 1)).sum
        / (chain.steps.filter (fun s => s.type == "premise")).length := by
  unfold assess_premise_strength
  rw [if_neg (by simp [h])]
  dsimp only
  rw [foldl_add_map, zero_add]

/-- Claim C6: `assess_premise_strength` returns exactly overall_strength 0.0
and premise_count 0 with no individual_strengths key when the chain has no
premise-typed step; otherwise overall_strength equals the mean over premise
steps of min(confidence + 0.2 when evidence_used is non-empty else confidence,
1.0). -/
theorem C6_premise_strength (chain : ReasoningChain) :
    ((chain.steps.filter (fun s => s.type == "premise")).isEmpty = true →
      assess_premise_strength chain =
        { overall_strength := 0, premise_count := 0,
          individual_strengths := none }) ∧
    ((chain.steps.filter (fun s => s.type == "premise")).isEmpty = false →
      (assess_premise_strength chain).overall_strength =
        ((chain.steps.filter (fun s => s.type == "premise")).map (fun step =>
            min (if step.evidence_used.isEmpty then step.confidence
                 else step.confidence + 0.2) 1)).sum
          / (chain.steps.filter (fun s => s.type == "premise")).length) := by
  constructor
  · intro h
    unfold assess_premise_strength
    rw [if_pos h]
  · intro h
    rw [assess_premise_strength_nonempty chain h]
    congr 1
    congr 1
    apply List.map_congr_left
    intro step _
    cases he : step.evidence_used.isEmpty <;> simp [he, pymin_eq_min]

/-- Witness for C6: a chain with one premise of confidence 0.9 and non-empty
evidence satisfies the non-empty-premises hypothesis and yields overall
strength 1.0 (0.9 + 0.2 clamped to 1). -/
theorem C6_premise_strength_witness :
    (c6Chain.steps.filter (fun s => s.type == "premise")).isEmpty = false ∧
    (assess_premise_strength c6Chain).overall_strength = 1 := by
  refine ⟨by decide, ?_⟩
  rw [(C6_premise_strength c6Chain).2 (by decide)]
  norm_num [c6Chain, min_def]

theorem clamp_penalties (v : ℚ) (gaps : List GapRecord)
    (fallacies : List FallacyRecord) :
    pymax 0 (pymin 1
      (if !fallacies.isEmpty then
         (if !gaps.isEmpty then v - (gaps.length : ℚ) * 0.1 else v)
           - (fallacies.length : ℚ) * 0.15
       else (if !gaps.isEmpty then v - (gaps.length : ℚ) * 0.1 else v)))
      = clamp01 (v - 0.1 * (gaps.length : ℚ)
          - 0.15 * (fallacies.length : ℚ)) := by
  rw [pymax_eq_max, pymin_eq_min]
  unfold clamp01
  cases gaps <;> cases fallacies <;> simp <;> ring_nf

/-- Claim C8: the validate operation computes validation_score =
logical_validity − 0.1 × gap count − 0.15 × fallacy count, clamped to [0, 1],
and returns is_valid = (validation_score > 0.6). -/
theorem C8_validation_score (finditer : String → String → List ReMatch)
    (request : ValidationRequest) :
    (validate_reasoning_logic finditer request).validation_score =
      clamp01 ((validate_reasoning_logic finditer request).logical_validity
        - 0.1 * ((validate_reasoning_logic finditer request).logical_gaps.length : ℚ)
        - 0.15 * ((validate_reasoning_logic finditer request).fallacies.length : ℚ)) ∧
    ((validate_reasoning_logic finditer request).is_valid = true ↔
      0.6 < (validate_reasoning_logic finditer request).validation_score) := by
  constructor
  · unfold validate_reasoning_logic
    dsimp only
    exact clamp_penalties _ _ _
  · unfold validate_reasoning_logic
    dsimp only
    simp [decide_eq_true_eq]

theorem collect_primary_chains_eq (results : List (List ReasoningChain)) :
    collect_primary_chains results = results.flatten := by
  unfold collect_primary_chains
  suffices h : ∀ init, results.foldl
      (fun acc r => if !r.isEmpty then acc ++ r else acc) init
        = init ++ results.flatten by
    simpa using h []
  induction results with
  | nil => intro init; simp
  | cons r t ih =>
    intro init
    cases r with
    | nil =>
      rw [List.foldl_cons, if_neg (by simp)]
      simpa using ih init
    | cons a r2 =>
      rw [List.foldl_cons, if_pos (by simp), ih (init ++ a :: r2)]
      simp [List.append_assoc]

/-- Claim C9: the Multi-Claim Network Analyzer flags a mismatch entry exactly
when the number of collected chains differs from the number of claims (chains
of failed generations contribute nothing to the collection), flags a
mixed-reasoning entry exactly when more than one distinct reasoning_type
occurs among the chains, and produces no other inconsistency entries. -/
theorem C9_inconsistency_flags (claims : List String)
    (chains : List ReasoningChain) (results : List (List ReasoningChain)) :
    identify_claim_inconsistencies claims chains =
      (if chains.length ≠ claims.length then [mismatch_message] else [])
      ++ (if 1 < (chains.map (fun c => c.reasoning_type)).dedup.length then
            [mixed_types_message] else []) ∧
    (mismatch_message ∈ identify_claim_inconsistencies claims chains ↔
      chains.length ≠ claims.length) ∧
    (mixed_types_message ∈ identify_claim_inconsistencies claims chains ↔
      1 < (chains.map (fun c => c.reasoning_type)).dedup.length) ∧
    collect_primary_chains results = results.flatten := by
  refine ⟨?_, ?_, ?_, collect_primary_chains_eq results⟩ <;>
    · unfold identify_claim_inconsistencies
      by_cases h1 : chains.length ≠ claims.length <;>
        by_cases h2 : 1 < (chains.map (fun c => c.reasoning_type)).dedup.length <;>
          simp [h1, h2, gt_iff_lt, mismatch_message, mixed_types_message]

theorem build_validation_steps_types (rs : List String) (s : ReasoningStep)
    (hs : s ∈ build_validation_steps rs) :
    s.type = "inference" ∧ s.confidence = 0.8 := by
  unfold build_validation_steps at hs
  simp only [List.mem_map] at hs
  obtain ⟨p, _, rfl⟩ := hs
  exact ⟨rfl, rfl⟩

theorem build_no_premise (rs : List String) :
    (build_validation_steps rs).any (fun s => s.type == "premise") = false := by
  rw [List.any_eq_false]
  intro s hs
  rw [(build_validation_steps_types rs s hs).1]
  simp

theorem build_conf_map (rs : List String) :
    (build_validation_steps rs).map (fun s => s.confidence)
      = List.replicate rs.length (0.8 : ℚ) := by
  unfold build_validation_steps
  rw [List.map_map]
  have : ((fun s : ReasoningStep => s.confidence) ∘ fun p : Nat × String =>
      ({ step_number := p.1 + 1, text := p.2, confidence := 0.8,
         type := "inference", evidence_used := [] } : ReasoningStep))
      = fun _ => (0.8 : ℚ) := rfl
  rw [this, List.map_const', List.enum_length]

theorem build_length (rs : List String) :
    (build_validation_steps rs).length = rs.length := by
  unfold build_validation_steps
  rw [List.length_map, List.enum_length]

theorem build_mean (rs : List String) (h : rs ≠ []) :
    meanConfidence (build_validation_steps rs) = 0.8 := by
  unfold meanConfidence
  rw [build_conf_map, List.sum_replicate, nsmul_eq_mul, build_length]
  have hlen : ((rs.length : ℚ)) ≠ 0 :=
    Nat.cast_ne_zero.mpr (fun h0 => h (List.length_eq_zero.mp h0))
  rw [mul_comm, mul_div_assoc, div_self hlen, mul_one]

theorem validation_validity_le (rs : List String) (rt : ReasoningType) :
    assess_logical_validity (build_validation_steps rs) rt ≤ 0.46 := by
  rw [assess_logical_validity_eq_spec _ rt]
  unfold validitySpec
  by_cases he : (build_validation_steps rs).isEmpty
  · rw [if_pos he]; norm_num
  · rw [if_neg he]
    refine le_trans (min_le_left _ _) ?_
    have hrs : rs ≠ [] := by
      intro h0
      subst h0
      simp [build_validation_steps] at he
    simp only [build_no_premise, Bool.false_and, Bool.false_eq_true, if_false]
    rw [build_mean rs hrs]
    by_cases h2 : 2 ≤ (build_validation_steps rs).length
    · rw [if_pos h2]; norm_num
    · rw [if_neg h2]; norm_num

theorem validation_gaps_ne_nil (rs : List String) (rt : ReasoningType)
    (ev : List String) (oc lv : ℚ) :
    identify_logical_gaps
      { steps := build_validation_steps rs, reasoning_type := rt,
        overall_confidence := oc, logical_validity := lv } ev ≠ [] := by
  rw [identify_logical_gaps_eq]
  simp [build_no_premise]

theorem clamp_penalties_le (v : ℚ) (gaps : List GapRecord)
    (fallacies : List FallacyRecord) (hv : v ≤ 0.46) (hg : gaps ≠ []) :
    pymax 0 (pymin 1
      (if !fallacies.isEmpty then
         (if !gaps.isEmpty then v - (gaps.length : ℚ) * 0.1 else v)
           - (fallacies.length : ℚ) * 0.15
       else (if !gaps.isEmpty then v - (gaps.length : ℚ) * 0.1 else v)))
      ≤ 0.6 := by
  have hgE : gaps.isEmpty = false := by
    cases gaps with
    | nil => exact absurd rfl hg
    | cons a t => rfl
  have hgl : (1 : ℚ) ≤ (gaps.length : ℚ) := by
    exact_mod_cast List.length_pos.mpr hg
  have hfl : (0 : ℚ) ≤ (fallacies.length : ℚ) := by positivity
  rw [pymax_eq_max, pymin_eq_min, hgE]
  simp only [Bool.not_false, if_true]
  have hs1 : v - (gaps.length : ℚ) * 0.1 ≤ 0.36 := by linarith
  apply max_le (by norm_num)
  refine le_trans (min_le_right _ _) ?_
  by_cases hf : fallacies.isEmpty
  · simp only [hf, Bool.not_true, Bool.false_eq_true, if_false]
    linarith
  · simp only [hf, Bool.not_false, if_true]
    linarith

/-- Claim C10: for every request to the validate operation, the returned
is_valid is false: every step is constructed with type inference and confidence
0.8, so no step has type premise, logical validity is at most 0.46, the
missing-premise gap check fires, and the clamped validation score never exceeds
0.6. -/
theorem C10_validate_never_valid (finditer : String → String → List ReMatch)
    (request : ValidationRequest) :
    (validate_reasoning_logic finditer request).is_valid = false := by
  unfold validate_reasoning_logic
  dsimp only
  apply decide_eq_false
  intro hgt
  exact absurd hgt (not_lt.mpr
    (clamp_penalties_le _ _ _
      (validation_validity_le request.reasoning_steps request.reasoning_type)
      (validation_gaps_ne_nil request.reasoning_steps request.reasoning_type
        request.evidence 0.8 0)))

end ClaimMapper
